import Mathlib

/-!
Formal model of the 5G PCF charmed operator (`src/charm.py`), a lifecycle
controller that watches a database dependency and an NRF registry dependency,
renders a configuration artifact once both are satisfied, and applies a
process-supervision (Pebble) plan.

The charm's event handlers are embedded as pure functions over an explicit
state record.  External collaborators (container runtime, relation data bags,
registry URL resolution, pod-IP lookup) are modelled as fields of the state,
per the collaborator contracts in the specification.  Each handler returns the
trace of its effects: the final status assignment, whether the triggering
event was deferred, the `push` calls made, the Pebble layers added, and the
number of `replan` calls.
-/

namespace PCFOp

/-- Juju unit status values used by the charm: `BlockedStatus`,
`WaitingStatus`, `ActiveStatus`, each but the last carrying a message. -/
inductive ControllerStatus where
  | blocked (msg : String)
  | waiting (msg : String)
  | active
deriving DecidableEq, Repr

/-- One Pebble service description, as built by `_pebble_layer`. -/
structure ServiceSpec where
  override : String
  startup : String
  command : String
  environment : List (String × String)
deriving DecidableEq, Repr

/-- A Pebble layer: summary, description and named services. -/
structure PebbleLayer where
  summary : String
  description : String
  services : List (String × ServiceSpec)
deriving DecidableEq, Repr

/-- The controller's visible world: container reachability and filesystem,
current Pebble plan, relation existence flags, the database collaborator's
resource-created flag and relation data bag, the registry collaborator's
resolved URL (empty string when unresolved, matching Python falsiness of an
absent URL), and own-identity values. -/
structure CharmState where
  canConnect : Bool
  files : List (String × String)
  plan : List (String × ServiceSpec)
  status : Option ControllerStatus
  dbRelationCreated : Bool
  nrfRelationCreated : Bool
  dbResourceCreated : Bool
  dbRelationData : List (String × String)
  nrfUrl : String
  appName : String
  modelName : String
  podIp : String
deriving DecidableEq, Repr

/-- Effect trace of one event-handler run: the last status assignment (`none`
if the run never assigned one), whether `event.defer()` was called, the
`container.push` calls (path, content) in order, the Pebble layers added, and
the number of `replan` calls. -/
structure HandlerOut where
  setStatus : Option ControllerStatus
  deferred : Bool
  pushes : List (String × String)
  addLayers : List PebbleLayer
  replans : Nat
deriving DecidableEq, Repr

/-- `BASE_CONFIG_PATH` constant. -/
def BASE_CONFIG_PATH : String := "/etc/pcf"

/-- `CONFIG_FILE_NAME` constant. -/
def CONFIG_FILE_NAME : String := "pcfcfg.conf"

/-- `DATABASE_NAME` constant. -/
def DATABASE_NAME : String := "free5gc"

/-- The fixed artifact path `f"{BASE_CONFIG_PATH}/{CONFIG_FILE_NAME}"`. -/
def config_path : String := BASE_CONFIG_PATH ++ "/" ++ CONFIG_FILE_NAME

/-- Look a path up in the container filesystem (models `container.exists` /
reading back a pushed file). -/
def getFile (fs : List (String × String)) (p : String) : Option String :=
  (fs.find? (fun e => e.1 == p)).map (fun e => e.2)

/-- `container.push`: (over)write one path with new content. -/
def pushFile (fs : List (String × String)) (p c : String) : List (String × String) :=
  (p, c) :: fs.filter (fun e => e.1 != p)

/-- `_pcf_hostname`: `f"{self.model.app.name}.{self.model.name}.svc.cluster.local"`. -/
def pcf_hostname (s : CharmState) : String :=
  s.appName ++ "." ++ s.modelName ++ ".svc.cluster.local"

/-- `_environment_variables`. -/
def environment_variables (s : CharmState) : List (String × String) :=
  [("GRPC_GO_LOG_VERBOSITY_LEVEL", "99"),
   ("GRPC_GO_LOG_SEVERITY_LEVEL", "info"),
   ("GRPC_TRACE", "all"),
   ("GRPC_VERBOSITY", "debug"),
   ("POD_IP", s.podIp),
   ("MANAGED_BY_CONFIG_POD", "true")]

/-- `_pebble_layer`: the Pebble layer for the pcf service. -/
def pebble_layer (s : CharmState) : PebbleLayer :=
  { summary := "pcf layer"
    description := "pebble config layer for pcf"
    services :=
      [("pcf",
        { override := "replace"
          startup := "enabled"
          command := "./pcf --pcfcfg " ++ BASE_CONFIG_PATH ++ "/" ++ CONFIG_FILE_NAME
          environment := environment_variables s })] }

/-- `_nrf_data_is_available`: truthiness of `get_nrf_url()`. -/
def nrf_data_is_available (s : CharmState) : Bool :=
  !(s.nrfUrl == "")

/-- `_database_is_available`: the database collaborator's `is_resource_created()`. -/
def database_is_available (s : CharmState) : Bool :=
  s.dbResourceCreated

/-- `_database_data`: raises `RuntimeError("Database is not available")` when
the database resource has not been created, otherwise returns the first
database relation's data bag (`fetch_relation_data()[relations[0].id]`). -/
def database_data (s : CharmState) : Except String (List (String × String)) :=
  if !database_is_available s then .error "Database is not available"
  else .ok s.dbRelationData

/-- `_config_file_is_written`: `container.exists` on the artifact path. -/
def config_file_is_written (s : CharmState) : Bool :=
  (getFile s.files config_path).isSome

/-- `_database_relation_is_created` (`_relation_created("database")`). -/
def database_relation_is_created (s : CharmState) : Bool :=
  s.dbRelationCreated

/-- `_nrf_relation_is_created` (`_relation_created("nrf")`). -/
def nrf_relation_is_created (s : CharmState) : Bool :=
  s.nrfRelationCreated

/-- Modelled from the spec: the Jinja2 template `src/templates/pcfcfg.conf.j2`
referenced by `_write_config_file` is not among the sources.  The rendered
document is reproduced from the outbound-artifact contract of the
specification, whose exact text is also asserted by the unit tests; the
parameters appear in the order of the `template.render` keyword arguments. -/
def renderConfig (nrf_url pcf_hostname database_name database_url : String) : String :=
  "configuration:\n  defaultBdtRefId: BdtPolicyId-\n  mongodb:\n    name: " ++
  database_name ++
  "\n    url: " ++
  database_url ++
  "\n  nrfUri: " ++
  nrf_url ++
  "\n  pcfName: PCF\n  plmnList:\n  - plmnId:\n      mcc: \"208\"\n      mnc: \"93\"\n  - plmnId:\n      mcc: \"333\"\n      mnc: \"88\"\n  sbi:\n    bindingIPv4: 0.0.0.0\n    port: 29507\n    registerIPv4: " ++
  pcf_hostname ++
  "\n    scheme: http\n  serviceList:\n  - serviceName: npcf-am-policy-control\n  - serviceName: npcf-smpolicycontrol\n    suppFeat: 3fff\n  - serviceName: npcf-bdtpolicycontrol\n  - serviceName: npcf-policyauthorization\n    suppFeat: 3\n  - serviceName: npcf-eventexposure\n  - serviceName: npcf-ue-policy-control\ninfo:\n  description: PCF initial local configuration\n  version: 1.0.0\nlogger:\n  AMF:\n    ReportCaller: false\n    debugLevel: info\n  AUSF:\n    ReportCaller: false\n    debugLevel: info\n  Aper:\n    ReportCaller: false\n    debugLevel: info\n  CommonConsumerTest:\n    ReportCaller: false\n    debugLevel: info\n  FSM:\n    ReportCaller: false\n    debugLevel: info\n  MongoDBLibrary:\n    ReportCaller: false\n    debugLevel: info\n  N3IWF:\n    ReportCaller: false\n    debugLevel: info\n  NAS:\n    ReportCaller: false\n    debugLevel: info\n  NGAP:\n    ReportCaller: false\n    debugLevel: info\n  NRF:\n    ReportCaller: false\n    debugLevel: info\n  NamfComm:\n    ReportCaller: false\n    debugLevel: info\n  NamfEventExposure:\n    ReportCaller: false\n    debugLevel: info\n  NsmfPDUSession:\n    ReportCaller: false\n    debugLevel: info\n  NudrDataRepository:\n    ReportCaller: false\n    debugLevel: info\n  OpenApi:\n    ReportCaller: false\n    debugLevel: info\n  PCF:\n    ReportCaller: false\n    debugLevel: info\n  PFCP:\n    ReportCaller: false\n    debugLevel: info\n  PathUtil:\n    ReportCaller: false\n    debugLevel: info\n  SMF:\n    ReportCaller: false\n    debugLevel: info\n  UDM:\n    ReportCaller: false\n    debugLevel: info\n  UDR:\n    ReportCaller: false\n    debugLevel: info\n  WEBUI:\n    ReportCaller: false\n    debugLevel: info"

/-- `_write_config_file`: render the template and push the result to the
artifact path.  Returns the pushed content together with the updated state. -/
def write_config_file (s : CharmState) (default_database_url nrf_url : String) :
    String × CharmState :=
  let content := renderConfig nrf_url (pcf_hostname s) DATABASE_NAME default_database_url
  (content, { s with files := pushFile s.files config_path content })

/-- `_on_pcf_pebble_ready`: the convergent reconciliation procedure (also the
handler for `database_relation_joined`). -/
def on_pcf_pebble_ready (s : CharmState) : HandlerOut :=
  if !database_relation_is_created s then
    { setStatus := some (.blocked "Waiting for database relation to be created")
      deferred := false, pushes := [], addLayers := [], replans := 0 }
  else if !nrf_relation_is_created s then
    { setStatus := some (.blocked "Waiting for NRF relation to be created")
      deferred := false, pushes := [], addLayers := [], replans := 0 }
  else if !s.canConnect then
    { setStatus := some (.waiting "Waiting for container to be ready")
      deferred := true, pushes := [], addLayers := [], replans := 0 }
  else if !config_file_is_written s then
    { setStatus := some (.waiting "Waiting for config file to be written")
      deferred := false, pushes := [], addLayers := [], replans := 0 }
  else
    { setStatus := some .active
      deferred := false, pushes := [], addLayers := [pebble_layer s], replans := 1 }

/-- `_on_database_created`: the database-data-changed entry point.  The event
carries `uris`, a comma-joined connection-URI string; the handler writes the
config file with `event.uris.split(",")[0]` and the current registry URL, then
runs the convergent reconciliation procedure. -/
def on_database_created (s : CharmState) (uris : String) : HandlerOut :=
  if !s.canConnect then
    { setStatus := some (.waiting "Waiting for container to be ready")
      deferred := true, pushes := [], addLayers := [], replans := 0 }
  else if !nrf_relation_is_created s then
    { setStatus := some (.blocked "Waiting for NRF relation to be created")
      deferred := true, pushes := [], addLayers := [], replans := 0 }
  else if !nrf_data_is_available s then
    { setStatus := some (.waiting "Waiting for NRF data to be available")
      deferred := true, pushes := [], addLayers := [], replans := 0 }
  else
    let cs := write_config_file s ((uris.split (fun c => c == ',')).headI) s.nrfUrl
    let o := on_pcf_pebble_ready cs.2
    { o with pushes := (config_path, cs.1) :: o.pushes }

/-- `_on_nrf_available`: the registry-data-changed entry point.  The event
carries the resolved registry `url`; the handler writes the config file with
`self._database_data["uris"].split(",")[0]` and the event URL, then runs the
convergent reconciliation procedure.  An `.error` result models an uncaught
Python exception (`RuntimeError` from `_database_data`, or `KeyError` when the
data bag has no `uris` key). -/
def on_nrf_available (s : CharmState) (url : String) : Except String HandlerOut :=
  if !s.canConnect then
    .ok { setStatus := some (.waiting "Waiting for container to be ready")
          deferred := true, pushes := [], addLayers := [], replans := 0 }
  else if !database_relation_is_created s then
    .ok { setStatus := some (.blocked "Waiting for database relation to be created")
          deferred := true, pushes := [], addLayers := [], replans := 0 }
  else if !database_is_available s then
    .ok { setStatus := some (.waiting "Waiting for database to be available")
          deferred := true, pushes := [], addLayers := [], replans := 0 }
  else
    match database_data s with
    | .error e => .error e
    | .ok data =>
      match (data.find? (fun e => e.1 == "uris")).map (fun e => e.2) with
      | none => .error "KeyError: uris"
      | some uris =>
        let cs := write_config_file s ((uris.split (fun c => c == ',')).headI) url
        let o := on_pcf_pebble_ready cs.2
        .ok { o with pushes := (config_path, cs.1) :: o.pushes }

/-- The four observed event kinds (`__init__`): `pcf_pebble_ready`,
`database_relation_joined`, `database_created` and `nrf_available`. -/
inductive Event where
  | pebbleReady
  | databaseRelationJoined
  | databaseCreated (uris : String)
  | nrfAvailable (url : String)
deriving DecidableEq, Repr

/-- Dispatch one event to its registered handler. -/
def handleEvent (s : CharmState) : Event → Except String HandlerOut
  | .pebbleReady => .ok (on_pcf_pebble_ready s)
  | .databaseRelationJoined => .ok (on_pcf_pebble_ready s)
  | .databaseCreated uris => .ok (on_database_created s uris)
  | .nrfAvailable url => on_nrf_available s url

/-- Replace one named service in the plan (the layer's services all carry
`override: replace`, and `add_layer(..., combine=True)` with that override
substitutes the new service description for any existing one). -/
def combineLayer (plan : List (String × ServiceSpec)) (l : PebbleLayer) :
    List (String × ServiceSpec) :=
  l.services.foldl (fun pl e => (e.1, e.2) :: pl.filter (fun q => q.1 != e.1)) plan

/-- Fold a handler's effect trace back into the state. -/
def applyOut (s : CharmState) (o : HandlerOut) : CharmState :=
  { s with
    files := o.pushes.foldl (fun fs pc => pushFile fs pc.1 pc.2) s.files
    plan := o.addLayers.foldl combineLayer s.plan
    status := match o.setStatus with
      | some st => some st
      | none => s.status }

/-- A comma-joined list of strings, the wire format of the database
collaborator's `uris` field (`uris: comma-joined string`). -/
def joinComma : List String → String
  | [] => ""
  | [u] => u
  | u :: v :: vs => u ++ "," ++ joinComma (v :: vs)

/-- A concrete fully-satisfied state used to instantiate theorems: container
reachable, both relations created, database resource created with the data bag
of the unit tests, registry URL resolved. -/
def goodState : CharmState :=
  { canConnect := true
    files := []
    plan := []
    status := none
    dbRelationCreated := true
    nrfRelationCreated := true
    dbResourceCreated := true
    dbRelationData := [("username", "banana"), ("password", "pizza"), ("uris", "http://6.6.6.6")]
    nrfUrl := "http://1.1.1.1"
    appName := "pcf-operator"
    modelName := "whatever"
    podIp := "1.2.3.4" }

/-- State for the C1 counterexample: runtime reachable, both relations
created, database resource created, registry URL resolved — but the data
bag's `uris` field holds the empty URI list. -/
def emptyUriState : CharmState :=
  { goodState with dbRelationData := [("username", "u"), ("password", "p"), ("uris", "")] }

/-- State with a two-element comma-joined URI list in the database data bag. -/
def twoUriState : CharmState :=
  { goodState with
    dbRelationData :=
      [("username", "banana"), ("password", "pizza"),
       ("uris", "1.2.3.4:1234,5.6.7.8:1111")] }

/-! ### Helper lemmas -/

theorem split_comma_first (u r : String) (h : ',' ∉ u.data) :
    String.split (u ++ "," ++ r) (fun c => c == ',') =
      u :: String.split r (fun c => c == ',') := by
  have hcf : ∀ x ∈ u.data, ¬((fun c => c == ',') x = true) := by
    intro x hx
    simp only [beq_iff_eq]
    exact fun heq => h (heq ▸ hx)
  have hdata : (u ++ "," ++ r).1 = u.data ++ ',' :: r.data := by
    simp [String.data_append]
  simp only [String.split_of_valid, hdata]
  rw [List.splitOnP_first _ _ hcf ',' (by simp) r.data]
  rfl

theorem split_comma_single (u : String) (h : ',' ∉ u.data) :
    String.split u (fun c => c == ',') = [u] := by
  have hcf : ∀ x ∈ u.data, ¬((fun c => c == ',') x = true) := by
    intro x hx
    simp only [beq_iff_eq]
    exact fun heq => h (heq ▸ hx)
  simp only [String.split_of_valid]
  rw [List.splitOnP_eq_single _ _ hcf]
  rfl

/-- Python's `uris.split(",")[0]` on a comma-joined nonempty list whose first
element is comma-free recovers exactly that first element. -/
theorem joinComma_split_headI (u : String) (us : List String) (h : ',' ∉ u.data) :
    ((joinComma (u :: us)).split (fun c => c == ',')).headI = u := by
  cases us with
  | nil =>
    rw [show joinComma [u] = u from rfl, split_comma_single u h]
    rfl
  | cons v vs =>
    rw [show joinComma (u :: v :: vs) = u ++ "," ++ joinComma (v :: vs) from rfl,
      split_comma_first _ _ h]
    rfl

/-- The convergent reconciliation procedure never pushes a file. -/
theorem on_pcf_pebble_ready_pushes (s : CharmState) :
    (on_pcf_pebble_ready s).pushes = [] := by
  unfold on_pcf_pebble_ready
  repeat' split
  all_goals rfl

/-- The convergent reconciliation procedure assigns a status on every path. -/
theorem on_pcf_pebble_ready_status_isSome (s : CharmState) :
    (on_pcf_pebble_ready s).setStatus.isSome = true := by
  unfold on_pcf_pebble_ready
  repeat' split
  all_goals rfl

/-- The reconciliation procedure's success branch: both relations created,
container reachable, artifact present. -/
theorem reconcile_success (s : CharmState)
    (hdb : s.dbRelationCreated = true) (hnrf : s.nrfRelationCreated = true)
    (hcc : s.canConnect = true) (hcf : config_file_is_written s = true) :
    on_pcf_pebble_ready s =
      { setStatus := some .active, deferred := false, pushes := []
        addLayers := [pebble_layer s], replans := 1 } := by
  simp [on_pcf_pebble_ready, database_relation_is_created, nrf_relation_is_created,
    hdb, hnrf, hcc, hcf]

/-- Merging a single-service layer into a plan twice equals merging it once. -/
theorem combineLayer_idem (p : List (String × ServiceSpec)) (l : PebbleLayer)
    (n : String) (sv : ServiceSpec) (hs : l.services = [(n, sv)]) :
    combineLayer (combineLayer p l) l = combineLayer p l := by
  simp [combineLayer, hs, List.filter_filter]

/-! ### Claim theorems -/

/-- C1 counterexample: the claim says the artifact is never written with a
partially-available database URI list and that the renderer is never invoked
with an empty `databaseURI`.  In `emptyUriState` the database resource is
created (so `_database_is_available` holds) while the `uris` field is the
empty string, i.e. its URI list is empty; handling a registry-data-changed
event nevertheless writes the artifact, invoking the renderer with the empty
database URI `""`. -/
theorem c1_counterexample :
    (emptyUriState.dbRelationData.find? (fun kv => kv.1 == "uris")).map (fun kv => kv.2) =
      some "" ∧
    (handleEvent emptyUriState (.nrfAvailable "http://1.1.1.1")).map (fun o => o.pushes) =
      .ok [(config_path,
        renderConfig "http://1.1.1.1" (pcf_hostname emptyUriState) DATABASE_NAME "")] := by
  have hs : ((("" : String).split (fun c => c == ',')).headI) = "" := by
    rw [split_comma_single "" (by simp)]
    rfl
  constructor
  · rfl
  · simp [handleEvent, on_nrf_available, database_relation_is_created, database_is_available,
      database_data, write_config_file, hs, on_pcf_pebble_ready_pushes, emptyUriState, goodState,
      Except.map]

/-- C1 (amended): the configuration artifact is written only when the runtime
is reachable and only by the two data-changed handlers, and then only after
the coded guards on the *other* dependency pass — on the database path the
registry relation must exist and its URL be non-empty, on the registry path
the database relation must exist and its resource be created.  The pushed
content embeds the other dependency's current value and the first element of
the triggering payload's comma-split `uris`; non-emptiness of the database
URI list itself is not checked on either path. -/
theorem c1_write_guard (s : CharmState) (e : Event) (o : HandlerOut)
    (hok : handleEvent s e = .ok o) (hw : o.pushes ≠ []) :
    s.canConnect = true ∧
    ((∃ uris, e = .databaseCreated uris ∧
        s.nrfRelationCreated = true ∧ ¬ s.nrfUrl = "" ∧
        o.pushes = [(config_path,
          renderConfig s.nrfUrl (pcf_hostname s) DATABASE_NAME
            ((uris.split (fun c => c == ',')).headI))]) ∨
     (∃ url uris, e = .nrfAvailable url ∧
        s.dbRelationCreated = true ∧ s.dbResourceCreated = true ∧
        (s.dbRelationData.find? (fun kv => kv.1 == "uris")).map (fun kv => kv.2) = some uris ∧
        o.pushes = [(config_path,
          renderConfig url (pcf_hostname s) DATABASE_NAME
            ((uris.split (fun c => c == ',')).headI))])) := by
  cases e with
  | pebbleReady =>
    cases hok
    exact absurd (on_pcf_pebble_ready_pushes s) hw
  | databaseRelationJoined =>
    cases hok
    exact absurd (on_pcf_pebble_ready_pushes s) hw
  | databaseCreated uris =>
    simp only [handleEvent] at hok
    cases hok
    unfold on_database_created at hw ⊢
    split at hw
    · exact absurd rfl hw
    · rename_i h1
      split at hw
      · exact absurd rfl hw
      · rename_i h2
        split at hw
        · exact absurd rfl hw
        · rename_i h3
          simp [nrf_relation_is_created] at h1 h2
          simp [nrf_data_is_available] at h3
          refine ⟨h1, .inl ⟨uris, rfl, h2, h3, ?_⟩⟩
          simp [h1, h2, h3, nrf_relation_is_created, nrf_data_is_available,
            write_config_file, on_pcf_pebble_ready_pushes]
  | nrfAvailable url =>
    simp only [handleEvent] at hok
    cases h1 : s.canConnect with
    | false =>
      rw [show on_nrf_available s url =
          .ok { setStatus := some (.waiting "Waiting for container to be ready")
                deferred := true, pushes := [], addLayers := [], replans := 0 } by
        simp [on_nrf_available, h1]] at hok
      cases hok
      exact absurd rfl hw
    | true =>
      cases h2 : s.dbRelationCreated with
      | false =>
        rw [show on_nrf_available s url =
            .ok { setStatus := some (.blocked "Waiting for database relation to be created")
                  deferred := true, pushes := [], addLayers := [], replans := 0 } by
          simp [on_nrf_available, database_relation_is_created, h1, h2]] at hok
        cases hok
        exact absurd rfl hw
      | true =>
        cases h3 : s.dbResourceCreated with
        | false =>
          rw [show on_nrf_available s url =
              .ok { setStatus := some (.waiting "Waiting for database to be available")
                    deferred := true, pushes := [], addLayers := [], replans := 0 } by
            simp [on_nrf_available, database_relation_is_created, database_is_available,
              h1, h2, h3]] at hok
          cases hok
          exact absurd rfl hw
        | true =>
          cases hbag : (s.dbRelationData.find? (fun kv => kv.1 == "uris")).map
              (fun kv => kv.2) with
          | none =>
            rw [show on_nrf_available s url = .error "KeyError: uris" by
              simp [on_nrf_available, database_relation_is_created, database_is_available,
                database_data, h1, h2, h3, hbag]] at hok
            cases hok
          | some uris =>
            rw [show on_nrf_available s url =
                .ok { on_pcf_pebble_ready
                        (write_config_file s ((uris.split (fun c => c == ',')).headI) url).2 with
                      pushes := (config_path,
                        (write_config_file s ((uris.split (fun c => c == ',')).headI) url).1) ::
                        (on_pcf_pebble_ready
                          (write_config_file s
                            ((uris.split (fun c => c == ',')).headI) url).2).pushes } by
              simp [on_nrf_available, database_relation_is_created, database_is_available,
                database_data, h1, h2, h3, hbag]] at hok
            cases hok
            refine ⟨rfl, .inr ⟨url, uris, rfl, rfl, rfl, rfl, ?_⟩⟩
            simp [write_config_file, on_pcf_pebble_ready_pushes]

/-- C1 (amended) witness: the theorem applied at a fully-satisfied concrete
state and a concrete database-data-changed event. -/
theorem c1_write_guard_witness :
    goodState.canConnect = true ∧
    ((∃ uris, Event.databaseCreated "1.2.3.4:1234,5.6.7.8:1111" = .databaseCreated uris ∧
        goodState.nrfRelationCreated = true ∧ ¬ goodState.nrfUrl = "" ∧
        (on_database_created goodState "1.2.3.4:1234,5.6.7.8:1111").pushes = [(config_path,
          renderConfig goodState.nrfUrl (pcf_hostname goodState) DATABASE_NAME
            ((uris.split (fun c => c == ',')).headI))]) ∨
     (∃ url uris, Event.databaseCreated "1.2.3.4:1234,5.6.7.8:1111" = .nrfAvailable url ∧
        goodState.dbRelationCreated = true ∧ goodState.dbResourceCreated = true ∧
        (goodState.dbRelationData.find? (fun kv => kv.1 == "uris")).map (fun kv => kv.2) =
          some uris ∧
        (on_database_created goodState "1.2.3.4:1234,5.6.7.8:1111").pushes = [(config_path,
          renderConfig url (pcf_hostname goodState) DATABASE_NAME
            ((uris.split (fun c => c == ',')).headI))])) :=
  c1_write_guard goodState (.databaseCreated "1.2.3.4:1234,5.6.7.8:1111")
    (on_database_created goodState "1.2.3.4:1234,5.6.7.8:1111") rfl
    (by simp [on_database_created, nrf_relation_is_created, nrf_data_is_available, goodState,
      write_config_file])

/-- C2 counterexample: with the database relation created, the NRF relation
missing, and the container unreachable, the database-data-changed entry point
reports `WaitingStatus("Waiting for container to be ready")` rather than the
registry-missing `BlockedStatus` the claim requires regardless of runtime
reachability. -/
theorem c2_counterexample :
    ({ goodState with canConnect := false, nrfRelationCreated := false } :
      CharmState).dbRelationCreated = true ∧
    ({ goodState with canConnect := false, nrfRelationCreated := false } :
      CharmState).nrfRelationCreated = false ∧
    handleEvent { goodState with canConnect := false, nrfRelationCreated := false }
      (.databaseCreated "1.2.3.4:1234") =
      .ok { setStatus := some (.waiting "Waiting for container to be ready")
            deferred := true, pushes := [], addLayers := [], replans := 0 } :=
  ⟨rfl, rfl, rfl⟩

/-- C2 (amended): if the database relation is created and the NRF relation is
not, the convergent reconciliation procedure (runtime-ready and
relation-joined events) sets `BlockedStatus("Waiting for NRF relation to be
created")` regardless of runtime reachability; the database-data-changed
entry point sets the same Blocked status only when the runtime is reachable
(its reachability guard runs first). -/
theorem c2_blocked_nrf (s : CharmState) (uris : String)
    (hdb : s.dbRelationCreated = true) (hnrf : s.nrfRelationCreated = false) :
    (on_pcf_pebble_ready s).setStatus =
      some (.blocked "Waiting for NRF relation to be created") ∧
    (s.canConnect = true →
      (on_database_created s uris).setStatus =
        some (.blocked "Waiting for NRF relation to be created")) := by
  constructor
  · simp [on_pcf_pebble_ready, database_relation_is_created, nrf_relation_is_created, hdb, hnrf]
  · intro hcc
    simp [on_database_created, nrf_relation_is_created, hnrf, hcc]

/-- C2 (amended) witness: the theorem applied at a concrete state with the
NRF relation missing. -/
theorem c2_blocked_nrf_witness :
    (on_pcf_pebble_ready { goodState with nrfRelationCreated := false }).setStatus =
      some (.blocked "Waiting for NRF relation to be created") ∧
    (({ goodState with nrfRelationCreated := false } : CharmState).canConnect = true →
      (on_database_created { goodState with nrfRelationCreated := false }
        "1.2.3.4:1234").setStatus =
        some (.blocked "Waiting for NRF relation to be created")) :=
  c2_blocked_nrf { goodState with nrfRelationCreated := false } "1.2.3.4:1234" rfl rfl

/-- C5: when the config-write step runs with a database `uris` payload that is
a comma-joined list of one or more URIs (first element comma-free), the
rendered document embeds exactly the first element, in the order supplied, as
the database URL — on both the database-data-changed entry point (payload
from the event) and the registry-data-changed entry point (payload from the
relation data bag). -/
theorem c5_first_uri (s : CharmState) (u : String) (us : List String) (url : String)
    (hu : ',' ∉ u.data)
    (hcc : s.canConnect = true) (hnrfrel : s.nrfRelationCreated = true)
    (hnrfurl : ¬ s.nrfUrl = "")
    (hdbrel : s.dbRelationCreated = true) (hdbres : s.dbResourceCreated = true)
    (hbag : (s.dbRelationData.find? (fun kv => kv.1 == "uris")).map (fun kv => kv.2) =
      some (joinComma (u :: us))) :
    (on_database_created s (joinComma (u :: us))).pushes =
      [(config_path, renderConfig s.nrfUrl (pcf_hostname s) DATABASE_NAME u)] ∧
    ∃ o, on_nrf_available s url = .ok o ∧
      o.pushes = [(config_path, renderConfig url (pcf_hostname s) DATABASE_NAME u)] := by
  have hsplit := joinComma_split_headI u us hu
  constructor
  · simp [on_database_created, nrf_relation_is_created, nrf_data_is_available,
      hcc, hnrfrel, hnrfurl, write_config_file, on_pcf_pebble_ready_pushes, hsplit]
  · simp only [on_nrf_available, database_relation_is_created, database_is_available,
      database_data, hcc, hdbrel, hdbres, hbag, Bool.not_true, if_false,
      Bool.false_eq_true, ite_false]
    refine ⟨_, rfl, ?_⟩
    simp [write_config_file, on_pcf_pebble_ready_pushes, hsplit]

/-- C5 witness: the theorem applied at a concrete state whose payload is the
two-element list `1.2.3.4:1234,5.6.7.8:1111`; the first URI is embedded. -/
theorem c5_first_uri_witness :
    (on_database_created twoUriState (joinComma ["1.2.3.4:1234", "5.6.7.8:1111"])).pushes =
      [(config_path,
        renderConfig twoUriState.nrfUrl (pcf_hostname twoUriState) DATABASE_NAME
          "1.2.3.4:1234")] ∧
    ∃ o, on_nrf_available twoUriState "2.2.2.2" = .ok o ∧
      o.pushes = [(config_path,
        renderConfig "2.2.2.2" (pcf_hostname twoUriState) DATABASE_NAME "1.2.3.4:1234")] :=
  c5_first_uri twoUriState "1.2.3.4:1234" ["5.6.7.8:1111"] "2.2.2.2"
    (by decide) rfl rfl (by decide) rfl rfl rfl

/-- C6: the configuration renderer is pure and deterministic — two invocations
on identical (databaseURI, registryURL, ownHostname) triples produce
byte-identical documents. -/
theorem c6_render_deterministic (dbURI regURL host dbURI2 regURL2 host2 : String)
    (h1 : dbURI = dbURI2) (h2 : regURL = regURL2) (h3 : host = host2) :
    (renderConfig regURL host DATABASE_NAME dbURI).toUTF8 =
      (renderConfig regURL2 host2 DATABASE_NAME dbURI2).toUTF8 := by
  subst h1
  subst h2
  subst h3
  rfl

/-- C6 witness: the theorem applied at a concrete triple. -/
theorem c6_render_deterministic_witness :
    (renderConfig "http://1.1.1.1" "pcf-operator.whatever.svc.cluster.local" DATABASE_NAME
      "1.2.3.4:1234").toUTF8 =
    (renderConfig "http://1.1.1.1" "pcf-operator.whatever.svc.cluster.local" DATABASE_NAME
      "1.2.3.4:1234").toUTF8 :=
  c6_render_deterministic "1.2.3.4:1234" "http://1.1.1.1"
    "pcf-operator.whatever.svc.cluster.local" "1.2.3.4:1234" "http://1.1.1.1"
    "pcf-operator.whatever.svc.cluster.local" rfl rfl rfl

/-- C8: running the full reconciliation success path a second time with
unchanged inputs is idempotent — the second run produces the same effect
trace (same supervision layer, Active status, no pushes), and folding it into
the state is a no-op: plan, filesystem and status all stay exactly as after
the first run. -/
theorem c8_idempotent (s : CharmState)
    (hdb : s.dbRelationCreated = true) (hnrf : s.nrfRelationCreated = true)
    (hcc : s.canConnect = true) (hcf : config_file_is_written s = true) :
    on_pcf_pebble_ready (applyOut s (on_pcf_pebble_ready s)) = on_pcf_pebble_ready s ∧
    applyOut (applyOut s (on_pcf_pebble_ready s))
        (on_pcf_pebble_ready (applyOut s (on_pcf_pebble_ready s))) =
      applyOut s (on_pcf_pebble_ready s) := by
  have h1 := reconcile_success s hdb hnrf hcc hcf
  rw [h1]
  have h2 := reconcile_success (applyOut s
      { setStatus := some .active, deferred := false, pushes := []
        addLayers := [pebble_layer s], replans := 1 }) hdb hnrf hcc hcf
  have hp : pebble_layer (applyOut s
      { setStatus := some .active, deferred := false, pushes := []
        addLayers := [pebble_layer s], replans := 1 }) = pebble_layer s := rfl
  rw [hp] at h2
  rw [h2]
  refine ⟨rfl, ?_⟩
  simp [applyOut]
  exact combineLayer_idem s.plan (pebble_layer s) "pcf" _ rfl

/-- C8 witness: the theorem applied at a concrete state whose filesystem
already holds the artifact. -/
theorem c8_idempotent_witness :
    on_pcf_pebble_ready
        (applyOut { goodState with files := [(config_path, "cfg")] }
          (on_pcf_pebble_ready { goodState with files := [(config_path, "cfg")] })) =
      on_pcf_pebble_ready { goodState with files := [(config_path, "cfg")] } ∧
    applyOut
        (applyOut { goodState with files := [(config_path, "cfg")] }
          (on_pcf_pebble_ready { goodState with files := [(config_path, "cfg")] }))
        (on_pcf_pebble_ready
          (applyOut { goodState with files := [(config_path, "cfg")] }
            (on_pcf_pebble_ready { goodState with files := [(config_path, "cfg")] }))) =
      applyOut { goodState with files := [(config_path, "cfg")] }
        (on_pcf_pebble_ready { goodState with files := [(config_path, "cfg")] }) :=
  c8_idempotent { goodState with files := [(config_path, "cfg")] } rfl rfl rfl rfl

/-- C3: for every reconciliation run, from any of the four entry points, in
which both dependency bindings are established but the runtime container is
not reachable, the handler sets `WaitingStatus("Waiting for container to be
ready")` and defers the triggering event, performing no other effect. -/
theorem c3_waiting_defer (s : CharmState) (e : Event)
    (hdb : s.dbRelationCreated = true) (hnrf : s.nrfRelationCreated = true)
    (hcc : s.canConnect = false) :
    handleEvent s e =
      .ok { setStatus := some (.waiting "Waiting for container to be ready")
            deferred := true, pushes := [], addLayers := [], replans := 0 } := by
  cases e <;>
    simp [handleEvent, on_pcf_pebble_ready, on_database_created, on_nrf_available,
      database_relation_is_created, nrf_relation_is_created, hdb, hnrf, hcc]

/-- C3 witness: the theorem applied at a concrete unreachable-runtime state
and the runtime-ready event. -/
theorem c3_waiting_defer_witness :
    handleEvent { goodState with canConnect := false } .pebbleReady =
      .ok { setStatus := some (.waiting "Waiting for container to be ready")
            deferred := true, pushes := [], addLayers := [], replans := 0 } :=
  c3_waiting_defer { goodState with canConnect := false } .pebbleReady rfl rfl rfl

/-- C4: in every run of the convergent reconciliation procedure (the handler
registered for the runtime-ready and relation-joined events, also reached
from the data-changed handlers) in which both dependency bindings are
established, the runtime is reachable, and the configuration artifact does not
exist at the expected path, the status becomes `WaitingStatus("Waiting for
config file to be written")` and the event is not deferred. -/
theorem c4_waiting_config (s : CharmState)
    (hdb : s.dbRelationCreated = true) (hnrf : s.nrfRelationCreated = true)
    (hcc : s.canConnect = true) (hcf : config_file_is_written s = false) :
    on_pcf_pebble_ready s =
      { setStatus := some (.waiting "Waiting for config file to be written")
        deferred := false, pushes := [], addLayers := [], replans := 0 } := by
  simp [on_pcf_pebble_ready, database_relation_is_created, nrf_relation_is_created,
    hdb, hnrf, hcc, hcf]

/-- C4 witness: the theorem applied at a concrete state with no artifact. -/
theorem c4_waiting_config_witness :
    on_pcf_pebble_ready goodState =
      { setStatus := some (.waiting "Waiting for config file to be written")
        deferred := false, pushes := [], addLayers := [], replans := 0 } :=
  c4_waiting_config goodState rfl rfl rfl rfl

/-- C7: when the artifact already exists, both dependency bindings are
established and the runtime is reachable, the runtime-ready handler adds the
supervision layer, triggers exactly one replan, sets `ActiveStatus`, pushes
nothing, and leaves the container filesystem (hence the artifact's contents)
unchanged. -/
theorem c7_active_no_write (s : CharmState)
    (hdb : s.dbRelationCreated = true) (hnrf : s.nrfRelationCreated = true)
    (hcc : s.canConnect = true) (hcf : config_file_is_written s = true) :
    on_pcf_pebble_ready s =
      { setStatus := some .active, deferred := false, pushes := []
        addLayers := [pebble_layer s], replans := 1 } ∧
    (applyOut s (on_pcf_pebble_ready s)).files = s.files := by
  have h : on_pcf_pebble_ready s =
      { setStatus := some .active, deferred := false, pushes := []
        addLayers := [pebble_layer s], replans := 1 } := by
    simp [on_pcf_pebble_ready, database_relation_is_created, nrf_relation_is_created,
      hdb, hnrf, hcc, hcf]
  exact ⟨h, by rw [h]; rfl⟩

/-- C7 witness: the theorem applied at a concrete state whose filesystem
already holds the artifact. -/
theorem c7_active_no_write_witness :
    on_pcf_pebble_ready { goodState with files := [(config_path, "old-content")] } =
      { setStatus := some .active, deferred := false, pushes := []
        addLayers := [pebble_layer { goodState with files := [(config_path, "old-content")] }]
        replans := 1 } ∧
    (applyOut { goodState with files := [(config_path, "old-content")] }
        (on_pcf_pebble_ready { goodState with files := [(config_path, "old-content")] })).files =
      [(config_path, "old-content")] :=
  c7_active_no_write { goodState with files := [(config_path, "old-content")] }
    rfl rfl rfl rfl

/-- C9: `_database_data` raises the programming-contract fault
`RuntimeError("Database is not available")` whenever the database resource has
not been created, and returns the relation data bag without raising whenever
it has. -/
theorem c9_database_data (s t : CharmState)
    (hna : database_is_available s = false) (ha : database_is_available t = true) :
    database_data s = .error "Database is not available" ∧
    database_data t = .ok t.dbRelationData := by
  constructor
  · simp [database_data, hna]
  · simp [database_data, ha]

/-- C9 witness: the theorem applied at a concrete unavailable state and a
concrete available state. -/
theorem c9_database_data_witness :
    database_data { goodState with dbResourceCreated := false } =
      .error "Database is not available" ∧
    database_data goodState = .ok goodState.dbRelationData :=
  c9_database_data { goodState with dbResourceCreated := false } goodState rfl rfl

/-- C10: every event-handler run that completes (returns rather than raising)
assigns the unit status on the path it takes; the assigned value is by type
one of Blocked, Waiting or Active. -/
theorem c10_status_always_set (s : CharmState) (e : Event) (o : HandlerOut)
    (hok : handleEvent s e = .ok o) :
    o.setStatus.isSome = true := by
  cases e with
  | pebbleReady =>
    cases hok
    exact on_pcf_pebble_ready_status_isSome s
  | databaseRelationJoined =>
    cases hok
    exact on_pcf_pebble_ready_status_isSome s
  | databaseCreated uris =>
    simp only [handleEvent] at hok
    cases hok
    unfold on_database_created
    repeat' split
    · rfl
    · rfl
    · rfl
    · exact on_pcf_pebble_ready_status_isSome _
  | nrfAvailable url =>
    simp only [handleEvent] at hok
    unfold on_nrf_available at hok
    repeat' split at hok
    any_goals cases hok
    · rfl
    · rfl
    · rfl
    · exact on_pcf_pebble_ready_status_isSome _

/-- C10 witness: the theorem applied at a concrete state and event. -/
theorem c10_status_always_set_witness :
    ((on_pcf_pebble_ready goodState).setStatus).isSome = true :=
  c10_status_always_set goodState .pebbleReady (on_pcf_pebble_ready goodState) rfl

end PCFOp
